import Mathlib

/-!
Shallow embedding of the urheber-classification resolver of this repository
(src/main.py and src/new.py, class UrhebertAnalyzer) and proofs about the
behaviour its specification claims.

Conventions of the embedding:
* Python dict fields that may be absent become `Option` fields; a missing
  `domain_info` subfield read with `.get(k, "")` becomes a plain `String`
  with `""` standing for "missing", exactly as the source collapses them.
* Floating point confidences (0, 0.8, 0.9, 1.0) are modelled as `Rat`.
* External collaborators (the MongoDB collection, the OpenAI client) are
  explicit parameters; an exception raised by a collaborator is a dedicated
  constructor / `Except.error`, and the `try/except` blocks of the source
  become the corresponding `match` arms.
* The resolver methods mutate no instance state in the source; the embedding
  threads the instance state (the held client) explicitly to make that fact
  provable rather than assumed.
-/

/-- The result dictionary produced by `UrhebertAnalyzer.analyze`.  Fields
mirror the dict keys appearing in src/main.py and src/new.py; `justification`
and `sources` model the response keys spelled in German in the source
prompts, `reason` is the extra key of new.py's validation failure.  A field
that a given path never sets stays `none` (key absent from the dict). -/
structure ClassificationResult where
  urheber : Option String := none
  confidence : Option Rat := none
  method : Option String := none
  domain : Option String := none
  justification : Option String := none
  sources : Option (List String) := none
  error : Option String := none
  reason : Option String := none
  deriving DecidableEq, Repr

/-- The input document: `url = document.get("url", "")`,
`domain = document.get("domain_info", {}).get("domain", "")` and likewise
`tld`; the empty string stands for a missing key, exactly as in the source. -/
structure Document where
  url : String
  domain : String
  tld : String
  deriving DecidableEq, Repr

/-- One stored record as seen by `_check_database_for_domain` in
src/main.py: a `domain` string field and an optional `urheber` field
(`none` models the field being absent from the record). -/
structure DomRecord where
  domain : String
  urheber : Option String
  deriving DecidableEq, Repr

/-- The MongoDB collection handle: either an ordered list of records
(`find_one` returns the first match, one deterministic pick per call) or a
handle whose every query raises (modelling a failing store). -/
inductive Collection where
  | ok (records : List DomRecord)
  | raising (msg : String)
  deriving Repr

def lowerChars (s : String) : List Char :=
  s.toList.map Char.toLower

/-- Occurrence of `p` as a contiguous sublist of the second argument. -/
def hasSub (p : List Char) : List Char → Bool
  | [] => p.isPrefixOf []
  | c :: rest => p.isPrefixOf (c :: rest) || hasSub p rest

/-- Case-insensitive pattern match of `_check_database_for_domain`'s query
`{"domain": {"$regex": domain, "$options": "i"}}` (src/main.py line 56):
the pattern occurs inside the record's `domain` field value.  The pattern is
taken literally: the claims and records in play contain no regex
metacharacter whose special reading would change the outcome. -/
def regexMatchCI (field pat : String) : Bool :=
  hasSub (lowerChars pat) (lowerChars field)

/-- The combined query of src/main.py lines 56-61: the domain pattern match
AND `{"urheber": {"$exists": True, "$ne": ""}}`. -/
def recordMatches (domain : String) (r : DomRecord) : Bool :=
  regexMatchCI r.domain domain &&
    (match r.urheber with
     | some u => u != ""
     | none => false)

/-- `UrhebertAnalyzer._check_database_for_domain` (src/main.py lines 52-74):
`find_one` over the combined query projected to `urheber`; returns the found
record's `urheber` value, `none` when nothing matches, and — because the
whole body sits in `try/except Exception` returning `None` — `none` when the
collection raises.  Total by construction: the lookup never raises. -/
def checkDatabaseForDomain : Collection → String → Option String
  | Collection.raising _, _ => none
  | Collection.ok records, domain =>
      match records.find? (recordMatches domain) with
      | some r => r.urheber
      | none => none

/-- Instance state of the analyzer of src/main.py: the only attribute read
by `analyze` is `self.client`; its observable behaviour on the research path
is the outcome of the whole `try` block of
`_research_domain_with_web_search` up to and including `_process_response`:
either a processed result dict or a raised exception message. -/
structure AnalyzerState where
  research : String → String → Except String ClassificationResult

/-- Which external collaborators a call of `analyze` actually invoked. -/
structure Trace where
  storeQueried : Bool
  researchCalled : Bool
  deriving DecidableEq, Repr

/-- Tail of `_research_domain_with_web_search` (src/main.py lines 108-193):
on success the processed response dict gets `method = "web_search"`,
`confidence = 0.8` and `domain` written into it (lines 177-180); a raised
exception yields the error dict of lines 187-193. -/
def researchCall (st : AnalyzerState) (fullDomain url : String) : ClassificationResult :=
  match st.research fullDomain url with
  | Except.ok r =>
      { r with method := some "web_search", confidence := some 0.8,
               domain := some fullDomain }
  | Except.error e =>
      { urheber := some "unbekannt", confidence := some 0,
        method := some "error", error := some e, domain := some fullDomain }

/-- `UrhebertAnalyzer.analyze` of src/main.py (lines 11-50), instrumented
with a `Trace` of collaborator invocations and threading the instance state.
`if u != ""` renders the Python truthiness test `if existing_urheber:` on
the string returned by the lookup (`None` is the `none` arm). -/
def analyzeMainT (st : AnalyzerState) (document : Document)
    (collection : Option Collection) :
    ClassificationResult × Trace × AnalyzerState :=
  if document.domain = "" ∨ document.tld = "" then
    ({ urheber := some "unbekannt", confidence := some 0, method := some "failure" },
     ⟨false, false⟩, st)
  else
    match collection with
    | some coll =>
        match checkDatabaseForDomain coll (document.domain ++ "." ++ document.tld) with
        | some u =>
            if u ≠ "" then
              ({ urheber := some u, confidence := some 1, method := some "database",
                 domain := some (document.domain ++ "." ++ document.tld) },
               ⟨true, false⟩, st)
            else
              (researchCall st (document.domain ++ "." ++ document.tld) document.url,
               ⟨true, true⟩, st)
        | none =>
            (researchCall st (document.domain ++ "." ++ document.tld) document.url,
             ⟨true, true⟩, st)
    | none =>
        (researchCall st (document.domain ++ "." ++ document.tld) document.url,
         ⟨false, true⟩, st)

/-- The result component of `analyze` (src/main.py). -/
def analyzeMain (st : AnalyzerState) (document : Document)
    (collection : Option Collection) : ClassificationResult :=
  (analyzeMainT st document collection).1

/-- A parsed JSON value as far as src/new.py line 75 observes it: either a
JSON object (whose keys of interest are carried as a `ClassificationResult`,
any of them possibly absent) or a non-object value, on which the subsequent
`result.update(...)` raises `AttributeError` (the carried string is the
text of that exception). -/
inductive JsonValue where
  | dict (r : ClassificationResult)
  | nondict (msg : String)

/-- Outcome of `self.client.responses.create(...)` followed by
`json.loads(response.output_text)` in src/new.py lines 65-75: the call
itself raises, or the output text is not valid JSON (`json.loads` raises),
or it parses to a JSON value. -/
inductive ProviderResponse where
  | raises (msg : String)
  | malformed (msg : String)
  | json (v : JsonValue)

/-- Instance state of the analyzer of src/new.py: the held OpenAI client.
The prompt sent at line 65 is a fixed template of the full domain and the
url, so the provider's behaviour is a function of those two strings. -/
structure ProviderState where
  respond : String → String → ProviderResponse

/-- `UrhebertAnalyzer.analyze` of src/new.py (lines 14-93), instrumented
with a flag recording whether the provider was contacted and threading the
instance state.  All provider-side failures land in the `except` block of
lines 86-93; a successful parse gets `method`, `confidence = 0.9` and
`domain` written over the parsed dict by `result.update` (lines 78-82). -/
def analyzeNewS (ps : ProviderState) (document : Document) :
    ClassificationResult × Bool × ProviderState :=
  if document.domain = "" ∨ document.tld = "" then
    ({ urheber := some "unbekannt", confidence := some 0, method := some "failure",
       reason := some "Missing domain or TLD information." },
     false, ps)
  else
    match ps.respond (document.domain ++ "." ++ document.tld) document.url with
    | ProviderResponse.raises m =>
        ({ urheber := some "unbekannt", confidence := some 0, method := some "error",
           error := some m, domain := some (document.domain ++ "." ++ document.tld) },
         true, ps)
    | ProviderResponse.malformed m =>
        ({ urheber := some "unbekannt", confidence := some 0, method := some "error",
           error := some m, domain := some (document.domain ++ "." ++ document.tld) },
         true, ps)
    | ProviderResponse.json (JsonValue.nondict m) =>
        ({ urheber := some "unbekannt", confidence := some 0, method := some "error",
           error := some m, domain := some (document.domain ++ "." ++ document.tld) },
         true, ps)
    | ProviderResponse.json (JsonValue.dict r) =>
        ({ r with method := some "responses_api_web_search", confidence := some 0.9,
                  domain := some (document.domain ++ "." ++ document.tld) },
         true, ps)

/-- The result component of `analyze` (src/new.py). -/
def analyzeNew (ps : ProviderState) (document : Document) : ClassificationResult :=
  (analyzeNewS ps document).1

/-- The seven admissible categories listed verbatim in the classification
prompts of both variants (src/main.py lines 147-153, src/new.py lines
46-52). -/
def urheberCategories : List String :=
  ["staatlich", "nicht staatliche Hilfsorganisation", "sonstige Vereine",
   "Organisationen", "Gemeinschaften", "Unternehmen", "Privatperson"]

/-- The confidence/method invariant in the exact words of the spec (§3):
`confidence = 1.0` iff `method = "database"`, the fixed constant `c < 1`
iff `method = "research"`, `0` iff `method` is `"failure"` or `"error"`,
and `urheber = "unbekannt"` iff `method` is `"failure"` or `"error"`.
Written from the spec's words, to be compared with the code. -/
def specConfidenceInvariant (c : Rat) (r : ClassificationResult) : Prop :=
  (r.confidence = some 1 ↔ r.method = some "database") ∧
  (r.confidence = some c ↔ r.method = some "research") ∧
  (r.confidence = some 0 ↔ (r.method = some "failure" ∨ r.method = some "error")) ∧
  (r.urheber = some "unbekannt" ↔ (r.method = some "failure" ∨ r.method = some "error"))

/-- The invariant the code actually maintains: as the spec's version, except
that the research-path tag is the given `tag` (the source writes
`"web_search"` resp. `"responses_api_web_search"`, never `"research"`) and
only the forward direction of the `urheber` clause holds — a research
response is free to carry `"unbekannt"` or no `urheber` at all, so the
converse fails. -/
def codeConfidenceInvariant (tag : String) (c : Rat) (r : ClassificationResult) : Prop :=
  (r.confidence = some 1 ↔ r.method = some "database") ∧
  (r.confidence = some c ↔ r.method = some tag) ∧
  (r.confidence = some 0 ↔ (r.method = some "failure" ∨ r.method = some "error")) ∧
  ((r.method = some "failure" ∨ r.method = some "error") → r.urheber = some "unbekannt")

/-- C4: on a document whose `domain` or `tld` is missing or empty, both
variants of `analyze` return immediately the failure envelope
`urheber = "unbekannt"`, `confidence = 0`, `method = "failure"`, with no
`domain` field populated (the stated record equalities fix every other
field to `none`; new.py additionally sets its `reason` string). -/
theorem c4_validation_failure (st : AnalyzerState) (ps : ProviderState)
    (document : Document) (collection : Option Collection)
    (h : document.domain = "" ∨ document.tld = "") :
    analyzeMain st document collection =
      { urheber := some "unbekannt", confidence := some 0, method := some "failure" } ∧
    analyzeNew ps document =
      { urheber := some "unbekannt", confidence := some 0, method := some "failure",
        reason := some "Missing domain or TLD information." } := by
  unfold analyzeMain analyzeMainT analyzeNew analyzeNewS
  rw [if_pos h, if_pos h]
  exact ⟨rfl, rfl⟩

/-- C4 witness: the failure envelope at the concrete document with an empty
`domain`, a raising research client and no store. -/
theorem c4_validation_failure_witness :
    analyzeMain ⟨fun _ _ => Except.error "boom"⟩ ⟨"https://x.org", "", "org"⟩ none =
      { urheber := some "unbekannt", confidence := some 0, method := some "failure" } ∧
    analyzeNew ⟨fun _ _ => ProviderResponse.raises "boom"⟩ ⟨"https://x.org", "", "org"⟩ =
      { urheber := some "unbekannt", confidence := some 0, method := some "failure",
        reason := some "Missing domain or TLD information." } :=
  c4_validation_failure ⟨fun _ _ => Except.error "boom"⟩
    ⟨fun _ _ => ProviderResponse.raises "boom"⟩ ⟨"https://x.org", "", "org"⟩ none
    (Or.inl rfl)

/-- C10: on a document whose `domain` or `tld` is missing or empty, the
validation step returns before either external collaborator is touched:
even with a store handle supplied, the store is never queried and the
research provider is never contacted, in both variants. -/
theorem c10_no_external_calls_on_invalid (st : AnalyzerState) (ps : ProviderState)
    (document : Document) (coll : Collection)
    (h : document.domain = "" ∨ document.tld = "") :
    (analyzeMainT st document (some coll)).2.1 = ⟨false, false⟩ ∧
    (analyzeNewS ps document).2.1 = false := by
  unfold analyzeMainT analyzeNewS
  rw [if_pos h, if_pos h]
  exact ⟨rfl, rfl⟩

/-- C10 witness: no collaborator invocation at the concrete document with an
empty `tld`, a store handle present and a raising research client. -/
theorem c10_no_external_calls_on_invalid_witness :
    (analyzeMainT ⟨fun _ _ => Except.error "boom"⟩ ⟨"https://x.org", "x", ""⟩
        (some (Collection.ok [⟨"x.org", some "Unternehmen"⟩]))).2.1 = ⟨false, false⟩ ∧
    (analyzeNewS ⟨fun _ _ => ProviderResponse.raises "boom"⟩
        ⟨"https://x.org", "x", ""⟩).2.1 = false :=
  c10_no_external_calls_on_invalid ⟨fun _ _ => Except.error "boom"⟩
    ⟨fun _ _ => ProviderResponse.raises "boom"⟩ ⟨"https://x.org", "x", ""⟩
    (Collection.ok [⟨"x.org", some "Unternehmen"⟩]) (Or.inr rfl)

/-- C5: a store whose every query raises is handled inside
`_check_database_for_domain`: the lookup returns not-found instead of
raising, `analyze` produces exactly the result it would produce with no
store at all (the research path), and the research client is invoked. -/
theorem c5_store_error_degrades (st : AnalyzerState) (document : Document) (m : String)
    (hd : document.domain ≠ "") (ht : document.tld ≠ "") :
    checkDatabaseForDomain (Collection.raising m)
        (document.domain ++ "." ++ document.tld) = none ∧
    analyzeMain st document (some (Collection.raising m)) =
      analyzeMain st document none ∧
    (analyzeMainT st document (some (Collection.raising m))).2.1.researchCalled = true := by
  refine ⟨rfl, ?_, ?_⟩ <;>
    simp [analyzeMain, analyzeMainT, checkDatabaseForDomain, hd, ht]

/-- C5 witness: the degradation at a concrete valid document, a raising
store and a succeeding research client. -/
theorem c5_store_error_degrades_witness :
    checkDatabaseForDomain (Collection.raising "down") "example.org" = none ∧
    analyzeMain ⟨fun _ _ => Except.ok { urheber := some "Unternehmen" }⟩
        ⟨"https://example.org/x", "example", "org"⟩ (some (Collection.raising "down")) =
      analyzeMain ⟨fun _ _ => Except.ok { urheber := some "Unternehmen" }⟩
        ⟨"https://example.org/x", "example", "org"⟩ none ∧
    (analyzeMainT ⟨fun _ _ => Except.ok { urheber := some "Unternehmen" }⟩
        ⟨"https://example.org/x", "example", "org"⟩
        (some (Collection.raising "down"))).2.1.researchCalled = true :=
  c5_store_error_degrades ⟨fun _ _ => Except.ok { urheber := some "Unternehmen" }⟩
    ⟨"https://example.org/x", "example", "org"⟩ "down" (by decide) (by decide)

/-- C6 counterexample: `str` of a raised Python exception can be the empty
string (for instance a bare `Exception()`), and both error paths store
exactly that `str(e)` into `error`.  At a valid document with no store and a
research step raising an exception whose text is empty, src/main.py returns
the error envelope with `error` present but EMPTY — the claim's
unconditional "non-empty error field" is false at this input. -/
theorem c6_counterexample :
    (analyzeMain ⟨fun _ _ => Except.error ""⟩
        ⟨"https://example.org/x", "example", "org"⟩ none).method = some "error" ∧
    (analyzeMain ⟨fun _ _ => Except.error ""⟩
        ⟨"https://example.org/x", "example", "org"⟩ none).error = some "" := by
  exact ⟨rfl, rfl⟩

/-- C6 (amended): on a valid document where no store is given or the cache
lookup on the given store misses, a research step of src/main.py that raises
with text `m`, and a research step of src/new.py that raises or returns
malformed JSON with text `m`, both produce the error envelope:
`method = "error"`, `urheber = "unbekannt"`, `confidence = 0`,
`error` = exactly the exception text `m` (hence non-empty precisely when
`m` is, as it is for every `json.loads` failure, though not necessarily for
a provider exception), and `domain` still the full domain. -/
theorem c6_research_error_envelope (st : AnalyzerState) (ps : ProviderState)
    (document : Document) (collection : Option Collection) (m : String)
    (hd : document.domain ≠ "") (ht : document.tld ≠ "")
    (hmiss : ∀ coll, collection = some coll →
      checkDatabaseForDomain coll (document.domain ++ "." ++ document.tld) = none)
    (hmain : st.research (document.domain ++ "." ++ document.tld) document.url =
      Except.error m)
    (hnew : ps.respond (document.domain ++ "." ++ document.tld) document.url =
               ProviderResponse.raises m ∨
             ps.respond (document.domain ++ "." ++ document.tld) document.url =
               ProviderResponse.malformed m) :
    analyzeMain st document collection =
      { urheber := some "unbekannt", confidence := some 0, method := some "error",
        error := some m, domain := some (document.domain ++ "." ++ document.tld) } ∧
    analyzeNew ps document =
      { urheber := some "unbekannt", confidence := some 0, method := some "error",
        error := some m, domain := some (document.domain ++ "." ++ document.tld) } := by
  constructor
  · cases collection with
    | none => simp [analyzeMain, analyzeMainT, researchCall, hd, ht, hmain]
    | some coll =>
        simp [analyzeMain, analyzeMainT, researchCall, hd, ht, hmain, hmiss coll rfl]
  · rcases hnew with h | h <;> simp [analyzeNew, analyzeNewS, hd, ht, h]

/-- C6 witness: the error envelopes at a concrete valid document, a store
whose only record matches neither (a cache miss), a main.py research step
raising with text "boom" and a new.py provider raising with text "boom". -/
theorem c6_research_error_envelope_witness :
    analyzeMain ⟨fun _ _ => Except.error "boom"⟩
        ⟨"https://example.org/x", "example", "org"⟩
        (some (Collection.ok [⟨"other.net", some "Unternehmen"⟩])) =
      { urheber := some "unbekannt", confidence := some 0, method := some "error",
        error := some "boom", domain := some "example.org" } ∧
    analyzeNew ⟨fun _ _ => ProviderResponse.raises "boom"⟩
        ⟨"https://example.org/x", "example", "org"⟩ =
      { urheber := some "unbekannt", confidence := some 0, method := some "error",
        error := some "boom", domain := some "example.org" } :=
  c6_research_error_envelope ⟨fun _ _ => Except.error "boom"⟩
    ⟨fun _ _ => ProviderResponse.raises "boom"⟩
    ⟨"https://example.org/x", "example", "org"⟩
    (some (Collection.ok [⟨"other.net", some "Unternehmen"⟩])) "boom"
    (by decide) (by decide)
    (fun coll h => by cases Option.some_inj.mp h; decide) rfl (Or.inl rfl)

/-- C1 counterexample: a store holding two records that both match the key
"example.org" case-insensitively with non-empty `urheber` values.  The
second record carries "Privatperson" and satisfies every hypothesis of the
claim, yet `analyze` returns "Unternehmen" — the value of the FIRST
matching record — so the claim as stated (the value of an arbitrary
matching record is returned) is false at this input. -/
theorem c1_counterexample :
    recordMatches "example.org" ⟨"example.org", some "Privatperson"⟩ = true ∧
    (⟨"example.org", some "Privatperson"⟩ : DomRecord) ∈
      [(⟨"example.org", some "Unternehmen"⟩ : DomRecord),
       ⟨"example.org", some "Privatperson"⟩] ∧
    (analyzeMain ⟨fun _ _ => Except.error "unused"⟩
        ⟨"https://example.org/x", "example", "org"⟩
        (some (Collection.ok
          [⟨"example.org", some "Unternehmen"⟩,
           ⟨"example.org", some "Privatperson"⟩]))).urheber ≠ some "Privatperson" ∧
    (analyzeMain ⟨fun _ _ => Except.error "unused"⟩
        ⟨"https://example.org/x", "example", "org"⟩
        (some (Collection.ok
          [⟨"example.org", some "Unternehmen"⟩,
           ⟨"example.org", some "Privatperson"⟩]))).urheber = some "Unternehmen" := by
  refine ⟨rfl, ?_, ?_, rfl⟩
  · decide
  · decide

/-- C1 (amended): when the FIRST record that `find_one` returns for the
combined query (case-insensitive domain match and existing non-empty
`urheber`) carries the value `u`, `analyze` of src/main.py returns exactly
the database envelope `urheber = u`, `confidence = 1.0`,
`method = "database"`, `domain` = the full domain — and the research client
is not invoked at all in that call (`researchCalled = false`). -/
theorem c1_cache_hit_first_match (st : AnalyzerState) (document : Document)
    (records : List DomRecord) (r : DomRecord) (u : String)
    (hd : document.domain ≠ "") (ht : document.tld ≠ "")
    (hfind : records.find? (recordMatches (document.domain ++ "." ++ document.tld)) =
      some r)
    (hu : r.urheber = some u) (hne : u ≠ "") :
    analyzeMainT st document (some (Collection.ok records)) =
      ({ urheber := some u, confidence := some 1, method := some "database",
         domain := some (document.domain ++ "." ++ document.tld) },
       ⟨true, false⟩, st) := by
  simp [analyzeMainT, checkDatabaseForDomain, hfind, hu, hne, hd, ht]

/-- C1 witness: the database envelope at a concrete document and a
single-record store matching the key "example.org". -/
theorem c1_cache_hit_first_match_witness :
    analyzeMainT ⟨fun _ _ => Except.error "unused"⟩
        ⟨"https://example.org/x", "example", "org"⟩
        (some (Collection.ok [⟨"www.Example.org", some "Unternehmen"⟩])) =
      ({ urheber := some "Unternehmen", confidence := some 1, method := some "database",
         domain := some "example.org" },
       ⟨true, false⟩, ⟨fun _ _ => Except.error "unused"⟩) :=
  c1_cache_hit_first_match ⟨fun _ _ => Except.error "unused"⟩
    ⟨"https://example.org/x", "example", "org"⟩
    [⟨"www.Example.org", some "Unternehmen"⟩] ⟨"www.Example.org", some "Unternehmen"⟩
    "Unternehmen" (by decide) (by decide) (by decide) (by decide) (by decide)

/-- C9: both variants of `analyze` thread the instance state through
unchanged (the source assigns no instance attribute), so a second call with
the same document and unchanged store — the collaborators being the
deterministic functions held in that state — returns the identical result. -/
theorem c9_idempotent (st : AnalyzerState) (document : Document)
    (collection : Option Collection) (ps : ProviderState) (document2 : Document) :
    (analyzeMainT st document collection).2.2 = st ∧
    analyzeMain ((analyzeMainT st document collection).2.2) document collection =
      analyzeMain st document collection ∧
    (analyzeNewS ps document2).2.2 = ps ∧
    (analyzeNewS ((analyzeNewS ps document2).2.2) document2).1 =
      (analyzeNewS ps document2).1 := by
  have h1 : (analyzeMainT st document collection).2.2 = st := by
    unfold analyzeMainT
    repeat' split
    all_goals rfl
  have h2 : (analyzeNewS ps document2).2.2 = ps := by
    unfold analyzeNewS
    repeat' split
    all_goals rfl
  exact ⟨h1, by rw [h1], h2, by rw [h2]⟩

/-- C7 counterexample: a provider answer that is the valid JSON object with
no keys at all.  `json.loads` succeeds, `result.update` succeeds, and
src/new.py returns a result dictionary WITHOUT an `urheber` field — the
claim that every returned envelope contains `urheber` is false here. -/
theorem c7_counterexample :
    (analyzeNew ⟨fun _ _ => ProviderResponse.json (JsonValue.dict {})⟩
        ⟨"https://example.org/x", "example", "org"⟩).urheber = none ∧
    (analyzeNew ⟨fun _ _ => ProviderResponse.json (JsonValue.dict {})⟩
        ⟨"https://example.org/x", "example", "org"⟩).method =
      some "responses_api_web_search" :=
  ⟨rfl, rfl⟩

/-- C7 (amended): both variants of `analyze` are total (the source wraps
every collaborator call in `try/except`, rendered here by the embedding
being a total function) and every returned envelope carries `confidence`
and `method`; `urheber` is also present except on the research-success
path, where it is whatever the response JSON carried and may be absent. -/
theorem c7_total_envelope (st : AnalyzerState) (document : Document)
    (collection : Option Collection) (ps : ProviderState) (document2 : Document) :
    (analyzeMain st document collection).confidence ≠ none ∧
    (analyzeMain st document collection).method ≠ none ∧
    ((analyzeMain st document collection).urheber ≠ none ∨
      (analyzeMain st document collection).method = some "web_search") ∧
    (analyzeNew ps document2).confidence ≠ none ∧
    (analyzeNew ps document2).method ≠ none ∧
    ((analyzeNew ps document2).urheber ≠ none ∨
      (analyzeNew ps document2).method = some "responses_api_web_search") := by
  unfold analyzeMain analyzeMainT researchCall analyzeNew analyzeNewS
  repeat' split
  all_goals simp

/-- C2 counterexample: two research successes of src/main.py refute the
invariant as the claim states it.  At a valid document with no store and the
category "Unternehmen", the result carries `confidence = 0.8` with
`method = "web_search"`, falsifying the clause that the fixed sub-1.0
constant occurs iff `method = "research"`.  At the same document with a
response whose JSON carries `urheber = "unbekannt"`, the result has
`urheber = "unbekannt"` while `method = "web_search"`, falsifying the
backward direction of the clause `urheber = "unbekannt"` iff
`method ∈ {"failure", "error"}` — each weakening of the amended claim is
forced by one of these two inputs. -/
theorem c2_counterexample :
    ¬ specConfidenceInvariant 0.8
        (analyzeMain ⟨fun _ _ => Except.ok { urheber := some "Unternehmen" }⟩
          ⟨"https://example.org/x", "example", "org"⟩ none) ∧
    ¬ ((analyzeMain ⟨fun _ _ => Except.ok { urheber := some "unbekannt" }⟩
          ⟨"https://example.org/x", "example", "org"⟩ none).urheber =
            some "unbekannt" ↔
        ((analyzeMain ⟨fun _ _ => Except.ok { urheber := some "unbekannt" }⟩
            ⟨"https://example.org/x", "example", "org"⟩ none).method =
              some "failure" ∨
         (analyzeMain ⟨fun _ _ => Except.ok { urheber := some "unbekannt" }⟩
            ⟨"https://example.org/x", "example", "org"⟩ none).method =
              some "error")) := by
  constructor
  · intro h
    have hm := h.2.1.mp rfl
    rw [show (analyzeMain ⟨fun _ _ => Except.ok { urheber := some "Unternehmen" }⟩
        ⟨"https://example.org/x", "example", "org"⟩ none).method =
        some "web_search" from rfl] at hm
    exact absurd hm (by decide)
  · intro h
    have hm := h.mp rfl
    rw [show (analyzeMain ⟨fun _ _ => Except.ok { urheber := some "unbekannt" }⟩
        ⟨"https://example.org/x", "example", "org"⟩ none).method =
        some "web_search" from rfl] at hm
    rcases hm with hm | hm <;> exact absurd hm (by decide)

/-- C2 (amended): the invariant the code maintains, for every document,
store and collaborator behaviour: `confidence = 1.0` iff
`method = "database"`, `0.8` iff `method = "web_search"` (src/main.py) resp.
`0.9` iff `method = "responses_api_web_search"` (src/new.py), `0` iff
`method ∈ {"failure", "error"}`, and on those two methods
`urheber = "unbekannt"`. -/
theorem c2_confidence_method_invariant (st : AnalyzerState) (document : Document)
    (collection : Option Collection) (ps : ProviderState) (document2 : Document) :
    codeConfidenceInvariant "web_search" 0.8 (analyzeMain st document collection) ∧
    codeConfidenceInvariant "responses_api_web_search" 0.9 (analyzeNew ps document2) := by
  unfold analyzeMain analyzeMainT researchCall analyzeNew analyzeNewS
  repeat' split
  all_goals (norm_num [codeConfidenceInvariant]; try simp)

/-- C3 counterexample: at a valid document with no store and a research
client that succeeds with the in-set category "Unternehmen" but no
justification or source list, src/main.py returns that category with
`method = "web_search"` — not `"research"` — and with `justification` and
`sources` absent, so the claim as stated is false at this input. -/
theorem c3_counterexample :
    "Unternehmen" ∈ urheberCategories ∧
    (analyzeMain ⟨fun _ _ => Except.ok { urheber := some "Unternehmen" }⟩
        ⟨"https://example.org/x", "example", "org"⟩ none).urheber =
      some "Unternehmen" ∧
    (analyzeMain ⟨fun _ _ => Except.ok { urheber := some "Unternehmen" }⟩
        ⟨"https://example.org/x", "example", "org"⟩ none).method ≠ some "research" ∧
    (analyzeMain ⟨fun _ _ => Except.ok { urheber := some "Unternehmen" }⟩
        ⟨"https://example.org/x", "example", "org"⟩ none).justification = none ∧
    (analyzeMain ⟨fun _ _ => Except.ok { urheber := some "Unternehmen" }⟩
        ⟨"https://example.org/x", "example", "org"⟩ none).sources = none := by
  refine ⟨by decide, rfl, ?_, rfl, rfl⟩
  decide

/-- C3 (amended): on a valid document where no store is given or the cache
lookup on the given store misses, a successful research step makes
src/main.py return the processed response with its `urheber`,
`justification` and `sources` exactly as the response carried them (absent
stays absent), overlaid with `method = "web_search"`, `confidence = 0.8`
and the full domain. -/
theorem c3_research_success_passthrough (st : AnalyzerState) (document : Document)
    (collection : Option Collection) (r : ClassificationResult)
    (hd : document.domain ≠ "") (ht : document.tld ≠ "")
    (hmiss : ∀ coll, collection = some coll →
      checkDatabaseForDomain coll (document.domain ++ "." ++ document.tld) = none)
    (hres : st.research (document.domain ++ "." ++ document.tld) document.url =
      Except.ok r) :
    analyzeMain st document collection =
      { r with method := some "web_search", confidence := some 0.8,
               domain := some (document.domain ++ "." ++ document.tld) } := by
  cases collection with
  | none => simp [analyzeMain, analyzeMainT, researchCall, hd, ht, hres]
  | some coll =>
      simp [analyzeMain, analyzeMainT, researchCall, hd, ht, hres, hmiss coll rfl]

/-- C3 witness: the research envelope at a concrete document, a store whose
only record matches neither (a cache miss), and a research client answering
with category, justification and sources. -/
theorem c3_research_success_passthrough_witness :
    analyzeMain
        ⟨fun _ _ => Except.ok
          { urheber := some "Unternehmen", justification := some "Impressum",
            sources := some ["https://example.org/impressum"] }⟩
        ⟨"https://example.org/x", "example", "org"⟩
        (some (Collection.ok [⟨"other.net", some "Unternehmen"⟩])) =
      { urheber := some "Unternehmen", confidence := some 0.8,
        method := some "web_search", domain := some "example.org",
        justification := some "Impressum",
        sources := some ["https://example.org/impressum"] } :=
  c3_research_success_passthrough
    ⟨fun _ _ => Except.ok
      { urheber := some "Unternehmen", justification := some "Impressum",
        sources := some ["https://example.org/impressum"] }⟩
    ⟨"https://example.org/x", "example", "org"⟩
    (some (Collection.ok [⟨"other.net", some "Unternehmen"⟩]))
    { urheber := some "Unternehmen", justification := some "Impressum",
      sources := some ["https://example.org/impressum"] }
    (by decide) (by decide)
    (fun coll h => by cases Option.some_inj.mp h; decide) rfl

/-- C8 counterexample: a provider answer that is syntactically valid JSON
whose `urheber` lies outside the seven fixed categories.  src/new.py parses
it and returns it on the research path with `confidence = 0.9` instead of
rejecting it as an error — the claimed enforcement of the closed category
set does not exist in the code. -/
theorem c8_counterexample :
    urheberCategories.contains "Bananenrepublik" = false ∧
    (analyzeNew ⟨fun _ _ => ProviderResponse.json
          (JsonValue.dict { urheber := some "Bananenrepublik" })⟩
        ⟨"https://example.org/x", "example", "org"⟩).urheber =
      some "Bananenrepublik" ∧
    (analyzeNew ⟨fun _ _ => ProviderResponse.json
          (JsonValue.dict { urheber := some "Bananenrepublik" })⟩
        ⟨"https://example.org/x", "example", "org"⟩).method ≠ some "error" ∧
    (analyzeNew ⟨fun _ _ => ProviderResponse.json
          (JsonValue.dict { urheber := some "Bananenrepublik" })⟩
        ⟨"https://example.org/x", "example", "org"⟩).confidence = some 0.9 := by
  refine ⟨by decide, rfl, ?_, rfl⟩
  decide

/-- C8 (amended): src/new.py surfaces raising providers and malformed JSON
as `method = "error"` (see the C6 development) but performs no validation of
the category: every syntactically valid JSON object is passed through
unchanged — its `urheber`, whether inside or outside the closed set, or
absent, is returned with the research method tag and `confidence = 0.9`. -/
theorem c8_no_category_enforcement (ps : ProviderState) (document : Document)
    (r : ClassificationResult)
    (hd : document.domain ≠ "") (ht : document.tld ≠ "")
    (hresp : ps.respond (document.domain ++ "." ++ document.tld) document.url =
      ProviderResponse.json (JsonValue.dict r)) :
    analyzeNew ps document =
      { r with method := some "responses_api_web_search", confidence := some 0.9,
               domain := some (document.domain ++ "." ++ document.tld) } := by
  simp [analyzeNew, analyzeNewS, hd, ht, hresp]

/-- C8 witness: the passthrough at a concrete document and a provider whose
JSON carries an out-of-set category. -/
theorem c8_no_category_enforcement_witness :
    analyzeNew
        ⟨fun _ _ => ProviderResponse.json
          (JsonValue.dict { urheber := some "Bananenrepublik" })⟩
        ⟨"https://example.org/y", "example", "org"⟩ =
      { urheber := some "Bananenrepublik", confidence := some 0.9,
        method := some "responses_api_web_search", domain := some "example.org" } :=
  c8_no_category_enforcement
    ⟨fun _ _ => ProviderResponse.json
      (JsonValue.dict { urheber := some "Bananenrepublik" })⟩
    ⟨"https://example.org/y", "example", "org"⟩
    { urheber := some "Bananenrepublik" }
    (by decide) (by decide) rfl
